import Mathlib

/-!
Shallow embedding of pyperclipfix (src/pyperclipfix/__init__.py), the
clipboard backend resolution and access layer, together with theorems
checking the natural-language specification against this code.

Conventions of the embedding:
* Python exceptions become an explicit error type `PyErr`; fallible
  functions return `Except PyErr _`.
* Subprocess-based backends are modelled as functions of the helper
  program's captured standard output (for reads) and as producers of a
  trace of spawned commands (for writes); the byte/str decode step is
  the identity on the modelled strings.
* Time is idealized: a 10 ms sleep advances the clock by exactly 10 ms
  and everything else is instantaneous.
-/

namespace Pyperclip

/-- Python exceptions raised by the module, by kind.
`pyperclipError` is `PyperclipException(msg)`; `winApi name` is
`PyperclipWindowsException("Error calling " + name)` (the appended OS
error text `(%s % ctypes.WinError())` is an OS-supplied string outside
the model, so only the failing call's name is carried);
`valueError`, `typeError`, `indexError` are the builtin Python
exceptions; `timeoutError fn` is `PyperclipTimeoutException` raised by
the polling function named `fn`. -/
inductive PyErr where
  | pyperclipError (msg : String)
  | winApi (call : String)
  | valueError (msg : String)
  | typeError (msg : String)
  | indexError
  | timeoutError (fn : String)
  deriving Repr, DecidableEq

/-- The module-level EXCEPT_MSG triple-quoted string, verbatim. -/
def EXCEPT_MSG : String :=
  "\n    Pyperclip could not find a copy/paste mechanism for your system.\n    For more information, please visit https://pyperclip.readthedocs.io/en/latest/index.html#not-implemented-error "

/-- A Python value as far as the clipboard module can observe it:
one of the accepted scalar types, or a value of any other type of
which only the class name matters (`text.__class__.__name__`).
A float is carried by the string `repr` that Python's `str()` would
produce for it (shortest round-trip form), since binary floating
point itself is outside the embedding. -/
inductive PyValue where
  | pyStr (s : String)
  | pyInt (n : Int)
  | pyFloat (rep : String)
  | pyBool (b : Bool)
  | pyOther (typeName : String)
  deriving Repr, DecidableEq

/-- Python `str()` on the accepted scalar values: a string is itself,
an integer prints in decimal with a leading minus when negative,
a float prints as its canonical repr, a bool prints `True`/`False`. -/
def pyStrOf : PyValue → String
  | .pyStr s => s
  | .pyInt n => toString n
  | .pyFloat rep => rep
  | .pyBool b => if b then "True" else "False"
  | .pyOther _ => ""

/-- The error message `_stringifyText` builds for a rejected type
(the f-string with `text.__class__.__name__` interpolated). -/
def unsupportedMsg (typeName : String) : String :=
  "only str, int, float, and bool values can be copied to the clipboard, not " ++ typeName

/-- `_stringifyText`: accept str, int, float, bool and return `str(text)`;
raise `PyperclipException` naming the actual class otherwise. -/
def stringifyText : PyValue → Except PyErr String
  | .pyOther typeName => .error (.pyperclipError (unsupportedMsg typeName))
  | v => .ok (pyStrOf v)

/-- Whether `needle` is an initial segment of `hay`. -/
def charsLeading : List Char → List Char → Bool
  | [], _ => true
  | _ :: _, [] => false
  | a :: as, b :: bs => a == b && charsLeading as bs

/-- Whether `needle` occurs contiguously in `hay`. -/
def charsContains (needle : List Char) : List Char → Bool
  | [] => charsLeading needle []
  | h :: t => charsLeading needle (h :: t) || charsContains needle t

/-- Python `'needle' in hay` substring test. -/
def strContains (hay needle : String) : Bool :=
  charsContains needle.data hay.data

/-- ASCII lowercasing of one character, as `str.lower()` acts on the
session and version strings the module inspects. -/
def asciiLower (c : Char) : Char :=
  if 'A' ≤ c && c ≤ 'Z' then Char.ofNat (c.toNat + 32) else c

/-- Python `str.lower()` on the strings this module lowercases. -/
def lowerStr (s : String) : String :=
  String.mk (s.data.map asciiLower)

/-- Split a character list at every occurrence of `c`, keeping empty
pieces (the shape of `str.split(c)`). -/
def splitOnChar (c : Char) : List Char → List (List Char)
  | [] => [[]]
  | h :: t =>
    let rest := splitOnChar c t
    if h == c then [] :: rest
    else
      match rest with
      | [] => [[h]]
      | r :: rs => (h :: r) :: rs

/-- Python `str.splitlines()` restricted to `\n` separators: split on
newlines with no trailing empty entry (so the empty string yields the
empty list). -/
def pySplitlines (s : String) : List String :=
  let parts := (splitOnChar '\n' s.data).map String.mk
  if parts.getLast? = some "" then parts.dropLast else parts

/-- The whitespace characters `str.strip()` removes (the ASCII ones;
the module only strips helper-program output). -/
def isSpaceChar (c : Char) : Bool :=
  c == ' ' || c == '\t' || c == '\n' || c == '\r' || c == '\x0b' || c == '\x0c'

/-- Python `str.strip()`: drop whitespace from both ends. -/
def pyStrip (s : String) : String :=
  String.mk (((s.data.dropWhile isSpaceChar).reverse.dropWhile isSpaceChar).reverse)

/-- One spawned external command, as the backends issue them. -/
inductive Cmd where
  | popenIn (args : List String) (input : String)
  | popenOut (args : List String)
  | checkCall (args : List String)
  | runShell (cmd : String)
  | fileWrite (path : String) (content : String)
  | nativeWindowsCopy (text : String)
  | qtSetText (text : String)
  | pasteboardSet (text : String)
  deriving Repr, DecidableEq

/-- `copy_osx_pbcopy`: stringify, then pipe the text into `pbcopy w`. -/
def copy_osx_pbcopy (v : PyValue) : Except PyErr (List Cmd) := do
  let text ← stringifyText v
  return [.popenIn ["pbcopy", "w"] text]

/-- `paste_osx_pbcopy`: decode of the captured stdout of `pbpaste r`. -/
def paste_osx_pbcopy (stdout : String) : String :=
  stdout

/-- `copy_osx_pyobjc`: stringify, then set the general NSPasteboard. -/
def copy_osx_pyobjc (v : PyValue) : Except PyErr (List Cmd) := do
  let text ← stringifyText v
  return [.pasteboardSet text]

/-- `paste_osx_pyobjc`: returns `board.stringForType_(NSStringPboardType)`
unchanged; that call yields `None` (here `none`) when the pasteboard
holds no string, and the function passes it through. -/
def paste_osx_pyobjc (content : Option String) : Option String :=
  content

/-- `copy_qt`: stringify, then `cb.setText(text)` on the application
clipboard. -/
def copy_qt (v : PyValue) : Except PyErr (List Cmd) := do
  let text ← stringifyText v
  return [.qtSetText text]

/-- `paste_qt`: `str(cb.text())` for the clipboard's current text. -/
def paste_qt (cbText : String) : String :=
  cbText

/-- `copy_xclip`: stringify, then pipe the text into
`xclip -selection {c|p}`. -/
def copy_xclip (v : PyValue) (primary : Bool) : Except PyErr (List Cmd) := do
  let text ← stringifyText v
  let selection := if primary then "p" else "c"
  return [.popenIn ["xclip", "-selection", selection] text]

/-- `paste_xclip`: decode of the stdout of
`xclip -selection {c|p} -o`; stderr is intentionally ignored. -/
def paste_xclip (stdout : String) (primary : Bool) : String :=
  let _ := primary
  stdout

/-- `copy_xsel`: stringify, then pipe the text into `xsel {-b|-p} -i`. -/
def copy_xsel (v : PyValue) (primary : Bool) : Except PyErr (List Cmd) := do
  let text ← stringifyText v
  let flag := if primary then "-p" else "-b"
  return [.popenIn ["xsel", flag, "-i"] text]

/-- `paste_xsel`: decode of the stdout of `xsel {-b|-p} -o`. -/
def paste_xsel (stdout : String) (primary : Bool) : String :=
  let _ := primary
  stdout

/-- `copy_wl`: stringify; empty text runs `wl-copy [-p] --clear` via
`check_call`, otherwise the text is piped into `wl-copy [-p]`. -/
def copy_wl (v : PyValue) (primary : Bool) : Except PyErr (List Cmd) := do
  let text ← stringifyText v
  let args := if primary then ["wl-copy", "-p"] else ["wl-copy"]
  if text = "" then
    return [.checkCall (args ++ ["--clear"])]
  else
    return [.popenIn args text]

/-- `paste_wl`: decode of the stdout of `wl-paste -n -t text [-p]`. -/
def paste_wl (stdout : String) (primary : Bool) : String :=
  let _ := primary
  stdout

/-- `copy_gpaste`: stringify; empty text runs
`gpaste-client delete-history` via `check_call`, otherwise the text is
piped into `gpaste-client add`. -/
def copy_gpaste (v : PyValue) : Except PyErr (List Cmd) := do
  let text ← stringifyText v
  if text = "" then
    return [.checkCall ["gpaste-client", "delete-history"]]
  else
    return [.popenIn ["gpaste-client", "add"] text]

/-- `paste_gpaste`: strip each line of the stdout of
`gpaste-client history --raw` and take element `[0]` of the resulting
list; on empty output the list is empty and the subscript raises
IndexError. -/
def paste_gpaste (stdout : String) : Except PyErr String :=
  match (pySplitlines stdout).map pyStrip with
  | [] => .error .indexError
  | x :: _ => .ok x

/-- `copy_klipper`: stringify, then run
`qdbus org.kde.klipper /klipper setClipboardContents <text>` with the
encoded text as the final argument and nothing on stdin. -/
def copy_klipper (v : PyValue) : Except PyErr (List Cmd) := do
  let text ← stringifyText v
  return [.popenIn ["qdbus", "org.kde.klipper", "/klipper", "setClipboardContents", text] ""]

/-- `paste_klipper`: decode of the stdout of
`qdbus org.kde.klipper /klipper getClipboardContents`, with one
trailing newline removed when present. -/
def paste_klipper (stdout : String) : String :=
  if stdout.data.getLast? == some '\n' then String.mk stdout.data.dropLast else stdout

/-- `copy_dev_clipboard`: stringify (warnings for empty text or `\r`
do not alter control flow), then write the text to `/dev/clipboard`. -/
def copy_dev_clipboard (v : PyValue) : Except PyErr (List Cmd) := do
  let text ← stringifyText v
  return [.fileWrite "/dev/clipboard" text]

/-- `paste_dev_clipboard`: read the whole of `/dev/clipboard`. -/
def paste_dev_clipboard (content : String) : String :=
  content

/-- `copy_wsl`: stringify, then pipe the text into `clip.exe`. -/
def copy_wsl (v : PyValue) : Except PyErr (List Cmd) := do
  let text ← stringifyText v
  return [.popenIn ["clip.exe"] text]

/-- `paste_wsl`: stdout of
`powershell.exe -noprofile -command Get-Clipboard` with the final two
bytes (the appended `\r\n`) dropped, then decoded; modelled on strings
the two dropped bytes are the two final characters. -/
def paste_wsl (stdout : String) : String :=
  String.mk stdout.data.dropLast.dropLast

/-- The backend chosen by `determine_clipboard` / `set_clipboard`,
identified by which `init_*_clipboard` function produced it. -/
inductive BackendName where
  | devClipboard
  | windows
  | wsl
  | pyobjc
  | pbcopy
  | gpaste
  | klipper
  | wlClipboard
  | xsel
  | xclip
  | qt
  | no
  deriving Repr, DecidableEq

/-- The runtime environment `determine_clipboard` inspects:
`platform.system()`, `os.name`, existence of `/dev/clipboard` and
`/proc/version` with the latter's contents, importability of the
pyobjc (`Foundation`/`AppKit`), `qtpy` and `PyQt5` modules, the
`XDG_CURRENT_DESKTOP`, `WAYLAND_DISPLAY` and `DISPLAY` environment
variables (absent = `none`), and the `shutil.which` PATH probe. -/
structure Env where
  platformSystem : String
  osName : String
  devClipboardExists : Bool
  procVersionExists : Bool
  procVersion : String
  pyobjcImportable : Bool
  xdgCurrentDesktop : Option String
  waylandDisplay : Option String
  display : Option String
  which : String → Bool
  qtpyImportable : Bool
  pyqt5Importable : Bool

/-- Python truthiness of an optional environment-variable string:
present and nonempty. -/
def envTruthy : Option String → Bool
  | some s => s != ""
  | none => false

/-- The WSL test: `platform.system() == 'Linux'`, `/proc/version`
readable, and `"microsoft"` a substring of its lowercased contents. -/
def wslGuard (env : Env) : Bool :=
  env.platformSystem == "Linux" && env.procVersionExists
    && strContains (lowerStr env.procVersion) "microsoft"

/-- The final fallback of `determine_clipboard`: try `import qtpy`,
then `import PyQt5` (each selecting the qt backend), else the
unavailable pair. -/
def qtFallback (env : Env) : BackendName :=
  if env.qtpyImportable then .qt
  else if env.pyqt5Importable then .qt
  else .no

/-- The generic branch after the desktop-session checks: Wayland
display truthy with `wl-copy` on PATH; else under a truthy `DISPLAY`
try `xsel` then `xclip`; else (or if neither is on PATH) fall through
to the toolkit imports. -/
def afterDesktop (env : Env) : BackendName :=
  if envTruthy env.waylandDisplay && env.which "wl-copy" then .wlClipboard
  else if envTruthy env.display then
    if env.which "xsel" then .xsel
    else if env.which "xclip" then .xclip
    else qtFallback env
  else qtFallback env

/-- The generic POSIX tail of `determine_clipboard`: when
`XDG_CURRENT_DESKTOP` is set, a session containing `gnome` with
`gpaste-client` on PATH selects gpaste, a session containing `kde`
with both `klipper` and `qdbus` on PATH selects klipper; then the
display-based branches. -/
def linuxTail (env : Env) : BackendName :=
  match env.xdgCurrentDesktop with
  | some xdg =>
    if strContains (lowerStr xdg) "gnome" && env.which "gpaste-client" then .gpaste
    else if strContains (lowerStr xdg) "kde" && env.which "klipper" && env.which "qdbus" then .klipper
    else afterDesktop env
  | none => afterDesktop env

/-- The part of `determine_clipboard` after the cygwin/Windows
`if`/`elif` pair: the WSL check, the macOS check (pyobjc import,
falling back to pbcopy), then the generic POSIX tail. -/
def afterPlatform (env : Env) : BackendName :=
  if wslGuard env then .wsl
  else if env.osName == "mac" || env.platformSystem == "Darwin" then
    if env.pyobjcImportable then .pyobjc else .pbcopy
  else linuxTail env

/-- `determine_clipboard`: the platform cascade. A system name
containing `cygwin` with `/dev/clipboard` present selects the
dev-clipboard backend (a cygwin system without that file falls
through past the Windows `elif` into `afterPlatform`); else
`os.name == 'nt'` or `platform.system() == 'Windows'` selects the
native Windows backend; otherwise `afterPlatform`. -/
def determine_clipboard (env : Env) : BackendName :=
  if strContains (lowerStr env.platformSystem) "cygwin" then
    if env.devClipboardExists then .devClipboard
    else afterPlatform env
  else if env.osName == "nt" || env.platformSystem == "Windows" then .windows
  else afterPlatform env

/-- First-match resolution over an ordered list of guarded branches:
the first branch whose guard holds determines the result and no later
branch is evaluated. This is the decision-procedure shape the
specification describes; the theorems compare `determine_clipboard`
against it. -/
def firstMatch (branches : List ((Env → Bool) × BackendName)) (dflt : BackendName) (env : Env) : BackendName :=
  match branches with
  | [] => dflt
  | (g, b) :: rest => if g env then b else firstMatch rest dflt env

/-- Spec branch (a): GNOME session and the GNOME history tool on PATH. -/
def gnomeGuard (env : Env) : Bool :=
  match env.xdgCurrentDesktop with
  | some xdg => strContains (lowerStr xdg) "gnome" && env.which "gpaste-client"
  | none => false

/-- Spec branch (b): KDE session with both the KDE clipboard tool and
its D-Bus bridge on PATH. -/
def kdeGuard (env : Env) : Bool :=
  match env.xdgCurrentDesktop with
  | some xdg => strContains (lowerStr xdg) "kde" && env.which "klipper" && env.which "qdbus"
  | none => false

/-- Spec branch (c): a Wayland display present and the Wayland tool on
PATH. -/
def waylandGuard (env : Env) : Bool :=
  envTruthy env.waylandDisplay && env.which "wl-copy"

/-- Spec branch (d), first half: an X11 display present and `xsel` on
PATH. -/
def xselGuard (env : Env) : Bool :=
  envTruthy env.display && env.which "xsel"

/-- Spec branch (d), second half: an X11 display present and `xclip`
on PATH. -/
def xclipGuard (env : Env) : Bool :=
  envTruthy env.display && env.which "xclip"

/-- Spec branch (e): a windowing-toolkit binding is importable. -/
def toolkitGuard (env : Env) : Bool :=
  env.qtpyImportable || env.pyqt5Importable

/-- The ordered branch list for generic desktop Linux, as the
specification states it. -/
def linuxBranches : List ((Env → Bool) × BackendName) :=
  [(gnomeGuard, .gpaste), (kdeGuard, .klipper), (waylandGuard, .wlClipboard),
   (xselGuard, .xsel), (xclipGuard, .xclip), (toolkitGuard, .qt)]

/-- `CheckedCall.__call__`: run the wrapped foreign call, and if its
return value is falsy (modelled as 0) while `get_errno()` is nonzero,
raise `PyperclipWindowsException("Error calling " + name)`; otherwise
pass the return value through, a falsy one included. -/
def checkedCall (name : String) (ret errno : Nat) : Except PyErr Nat :=
  if ret == 0 && errno != 0 then .error (.winApi name) else .ok ret

/-- Outcomes of the foreign calls the Windows backend makes, supplied
from outside the model: `openOk i` is whether the `i`-th
`OpenClipboard` attempt returns nonzero; `callFails name` is whether
the `CheckedCall` wrapper around `name` observes a falsy return with
nonzero errno (and so raises); `getDataHandle`/`getDataErrno` are the
return value and errno of `GetClipboardData`; `clipboardText` is the
string read through the locked global-memory pointer. -/
structure WinOracle where
  openOk : Nat → Bool
  callFails : String → Bool
  getDataHandle : Nat
  getDataErrno : Nat
  clipboardText : String

/-- OS resources as counters of the calls the backend makes:
windows created by `CreateWindowExA` and `DestroyWindow` invocations,
clipboard `OpenClipboard` successes and `CloseClipboard` invocations,
plus whether the clipboard is currently held open. -/
structure WinState where
  created : Nat
  destroyed : Nat
  opened : Nat
  closed : Nat
  isOpen : Bool
  deriving Repr, DecidableEq

/-- The state at the start of a backend operation. -/
def winInit : WinState :=
  ⟨0, 0, 0, 0, false⟩

/-- A Windows-backend computation: state in, result or raised
exception out, with the state it left behind. -/
def WinM (α : Type) : Type :=
  WinState → Except PyErr α × WinState

/-- Return for `WinM`. -/
def wret {α : Type} (a : α) : WinM α :=
  fun s => (.ok a, s)

/-- Sequencing for `WinM`: an exception short-circuits, keeping the
state at the point it was raised. -/
def wbind {α β : Type} (m : WinM α) (f : α → WinM β) : WinM β :=
  fun s =>
    match m s with
    | (.ok a, s') => f a s'
    | (.error e, s') => (.error e, s')

/-- A `CheckedCall`-wrapped foreign call that the resource model only
tracks for success or raised exception; it does not touch the
resource counters. -/
def checked (o : WinOracle) (name : String) : WinM Unit :=
  fun s => (if o.callFails name then .error (.winApi name) else .ok (), s)

/-- `safeCreateWindowExA(...)` inside `window()`: on success one more
window exists; a raise creates nothing. -/
def createWindow (o : WinOracle) : WinM Unit :=
  fun s =>
    if o.callFails "CreateWindowExA" then (.error (.winApi "CreateWindowExA"), s)
    else (.ok (), { s with created := s.created + 1 })

/-- `safeDestroyWindow(hwnd)` in the `finally` of `window()`: the
destroy call is issued unconditionally; it may itself raise. -/
def destroyWindow (o : WinOracle) : WinM Unit :=
  fun s =>
    let s' := { s with destroyed := s.destroyed + 1 }
    (if o.callFails "DestroyWindow" then .error (.winApi "DestroyWindow") else .ok (), s')

/-- The `window()` context manager: create the window, run the body,
and destroy the window on every exit path (`try`/`finally`); an
exception raised by the `finally` clause replaces the body's outcome,
as in Python. -/
def withWindow {α : Type} (o : WinOracle) (body : WinM α) : WinM α :=
  fun s =>
    if o.callFails "CreateWindowExA" then (.error (.winApi "CreateWindowExA"), s)
    else
      match body { s with created := s.created + 1 } with
      | (r, s1) =>
        match destroyWindow o s1 with
        | (rd, s2) =>
          match rd with
          | .error e => (.error e, s2)
          | .ok _ =>
            match r with
            | .ok a => (.ok a, s2)
            | .error e => (.error e, s2)

/-- The retry interval of the `clipboard()` context manager's
`time.sleep(0.01)`, in milliseconds. -/
def OPEN_RETRY_INTERVAL_MS : Nat := 10

/-- The total budget of the `clipboard()` open loop
(`t = time.time() + 0.5`), in milliseconds. -/
def OPEN_TIMEOUT_MS : Nat := 500

/-- The `while time.time() < t` retry loop under the idealized clock:
attempts happen at 10 ms intervals from time 0 while the elapsed time
is below 500 ms, so `OPEN_TIMEOUT_MS / OPEN_RETRY_INTERVAL_MS`
attempts remain; `fuel` counts them and `i` numbers the attempt being
made. Returns whether some attempt succeeded. -/
def openLoop (ok : Nat → Bool) : Nat → Nat → Bool
  | 0, _ => false
  | fuel + 1, i => if ok i then true else openLoop ok fuel (i + 1)

/-- The whole open-retry phase of `clipboard()`: up to
`OPEN_TIMEOUT_MS / OPEN_RETRY_INTERVAL_MS` attempts starting at
attempt 0. -/
def openRetrySucceeds (ok : Nat → Bool) : Bool :=
  openLoop ok (OPEN_TIMEOUT_MS / OPEN_RETRY_INTERVAL_MS) 0

/-- The `clipboard(hwnd)` context manager: run the open-retry loop; if
it never succeeds raise
`PyperclipWindowsException("Error calling OpenClipboard")` with
nothing opened; on success run the body and call
`safeCloseClipboard()` on every exit path (`try`/`finally`), an
exception from the close replacing the body's outcome. -/
def clipboardCtx {α : Type} (o : WinOracle) (body : WinM α) : WinM α :=
  fun s =>
    if openRetrySucceeds o.openOk then
      match body { s with opened := s.opened + 1, isOpen := true } with
      | (r, s2) =>
        match (if o.callFails "CloseClipboard" then (.error (.winApi "CloseClipboard") : Except PyErr Unit) else .ok ()) with
        | .error e => (.error e, { s2 with closed := s2.closed + 1, isOpen := false })
        | .ok _ =>
          match r with
          | .ok a => (.ok a, { s2 with closed := s2.closed + 1, isOpen := false })
          | .error e => (.error e, { s2 with closed := s2.closed + 1, isOpen := false })
    else (.error (.winApi "OpenClipboard"), s)

/-- The body of `copy_windows` inside the open clipboard:
`safeEmptyClipboard()`, then for nonempty text the
`wcslen`/`GlobalAlloc`/`GlobalLock`/`memmove`/`GlobalUnlock`/
`SetClipboardData` sequence (`memmove` cannot raise and is not
tracked). -/
def copyWindowsBody (o : WinOracle) (text : String) : WinM Unit :=
  wbind (checked o "EmptyClipboard") fun _ =>
    if text = "" then wret ()
    else
      wbind (checked o "wcslen") fun _ =>
      wbind (checked o "GlobalAlloc") fun _ =>
      wbind (checked o "GlobalLock") fun _ =>
      wbind (checked o "GlobalUnlock") fun _ =>
      checked o "SetClipboardData"

/-- `copy_windows(text)`: stringify first (before any resource is
acquired), then `with window() as hwnd: with clipboard(hwnd): body`. -/
def copy_windows (o : WinOracle) (v : PyValue) : Except PyErr Unit × WinState :=
  match stringifyText v with
  | .error e => (.error e, winInit)
  | .ok text => withWindow o (clipboardCtx o (copyWindowsBody o text)) winInit

/-- The body of `paste_windows` inside the open clipboard:
`safeGetClipboardData(CF_UNICODETEXT)` through the `CheckedCall`
wrapper; a falsy handle that did not raise returns the empty string;
otherwise `GlobalLock`, read the wide string, `GlobalUnlock`. -/
def pasteWindowsBody (o : WinOracle) : WinM String :=
  wbind (fun s => (checkedCall "GetClipboardData" o.getDataHandle o.getDataErrno, s))
    fun handle =>
      if handle = 0 then wret ""
      else
        wbind (checked o "GlobalLock") fun _ =>
        wbind (checked o "GlobalUnlock") fun _ =>
        wret o.clipboardText

/-- `paste_windows()`: `with clipboard(None): ...` — no window is
created for a read. -/
def paste_windows (o : WinOracle) : Except PyErr String × WinState :=
  clipboardCtx o (pasteWindowsBody o) winInit

/-- `ClipboardUnavailable.__call__`: any call, whatever its arguments,
raises `PyperclipException(EXCEPT_MSG)`. -/
def clipboardUnavailableCall (args : List PyValue) : Except PyErr Unit :=
  let _ := args
  .error (.pyperclipError EXCEPT_MSG)

/-- `ClipboardUnavailable.__bool__`: always false. -/
def clipboardUnavailableBool : Bool :=
  false

/-- Everything outside the process that backend calls observe: the
resolution environment, the Windows-call oracle, the captured stdout
of each spawned command (keyed by its argument vector, or for the
shell-string invocations by the single-element vector holding the
shell command), the macOS pasteboard string (absent when it holds no
string), the qt clipboard text and the `/dev/clipboard` contents. -/
structure World where
  env : Env
  winOracle : WinOracle
  procOut : List String → String
  pasteboard : Option String
  qtText : String
  devContent : String

/-- The bound `copy` function of each backend, as a producer of a
command trace. The selection flag is at its Python default (`False`)
here; the native Windows copy is the resource-model `copy_windows`,
of which only the raised-or-returned outcome is kept; the unavailable
backend is `ClipboardUnavailable`. -/
def backendCopy (w : World) : BackendName → PyValue → Except PyErr (List Cmd)
  | .devClipboard, v => copy_dev_clipboard v
  | .windows, v => (copy_windows w.winOracle v).1.map fun _ => [.nativeWindowsCopy (pyStrOf v)]
  | .wsl, v => copy_wsl v
  | .pyobjc, v => copy_osx_pyobjc v
  | .pbcopy, v => copy_osx_pbcopy v
  | .gpaste, v => copy_gpaste v
  | .klipper, v => copy_klipper v
  | .wlClipboard, v => copy_wl v false
  | .xsel, v => copy_xsel v false
  | .xclip, v => copy_xclip v false
  | .qt, v => copy_qt v
  | .no, v => (clipboardUnavailableCall [v]).map fun _ => []

/-- The bound `paste` function of each backend. The result is the
Python return value: `none` models Python `None` (which only the
pyobjc backend can produce), `some s` a string. -/
def backendPaste (w : World) : BackendName → Except PyErr (Option String)
  | .devClipboard => .ok (some (paste_dev_clipboard w.devContent))
  | .windows => (paste_windows w.winOracle).1.map some
  | .wsl => .ok (some (paste_wsl (w.procOut ["powershell.exe", "-noprofile", "-command", "Get-Clipboard"])))
  | .pyobjc => .ok (paste_osx_pyobjc w.pasteboard)
  | .pbcopy => .ok (some (paste_osx_pbcopy (w.procOut ["pbpaste", "r"])))
  | .gpaste => (paste_gpaste (w.procOut ["gpaste-client history --raw & exit"])).map some
  | .klipper => .ok (some (paste_klipper (w.procOut ["qdbus", "org.kde.klipper", "/klipper", "getClipboardContents"])))
  | .wlClipboard => .ok (some (paste_wl (w.procOut ["wl-paste", "-n", "-t", "text"]) false))
  | .xsel => .ok (some (paste_xsel (w.procOut ["xsel", "-b", "-o"]) false))
  | .xclip => .ok (some (paste_xclip (w.procOut ["xclip", "-selection", "c", "-o"]) false))
  | .qt => .ok (some (paste_qt w.qtText))
  | .no => (clipboardUnavailableCall []).map fun _ => none

/-- The module-level dispatch pair: each entry is either still its
lazy stub (`none`) or bound to a backend's function (`some b`).
Initially `copy, paste = lazy_load_stub_copy, lazy_load_stub_paste`. -/
structure Dispatch where
  copyE : Option BackendName
  pasteE : Option BackendName
  deriving Repr, DecidableEq

/-- The dispatch state right after import: both entries are stubs. -/
def dispatchInit : Dispatch :=
  ⟨none, none⟩

/-- `is_available()`:
`copy != lazy_load_stub_copy and paste != lazy_load_stub_paste` —
in the module an entry differs from its stub exactly when it has been
rebound to a backend function. -/
def is_available (d : Dispatch) : Bool :=
  d.copyE.isSome && d.pasteE.isSome

/-- A call of the module-level `copy`: a stub
(`lazy_load_stub_copy`) runs `determine_clipboard()`, rebinds both
entries to the resolved pair, and forwards the call; a bound entry
just calls its backend function. -/
def callCopy (w : World) (d : Dispatch) (v : PyValue) : Except PyErr (List Cmd) × Dispatch :=
  match d.copyE with
  | none =>
    let b := determine_clipboard w.env
    (backendCopy w b v, ⟨some b, some b⟩)
  | some b => (backendCopy w b v, d)

/-- A call of the module-level `paste`, symmetric to `callCopy`. -/
def callPaste (w : World) (d : Dispatch) : Except PyErr (Option String) × Dispatch :=
  match d.pasteE with
  | none =>
    let b := determine_clipboard w.env
    (backendPaste w b, ⟨some b, some b⟩)
  | some b => (backendPaste w b, d)

/-- The `clipboard_types` dict of `set_clipboard`, in insertion
order. -/
def clipboard_types : List (String × BackendName) :=
  [("gpaste", .gpaste), ("pbcopy", .pbcopy), ("pyobjc", .pyobjc), ("qt", .qt),
   ("xclip", .xclip), ("xsel", .xsel), ("wl-clipboard", .wlClipboard),
   ("klipper", .klipper), ("windows", .windows), ("wsl", .wsl),
   ("dev_clipboard", .devClipboard), ("no", .no)]

/-- The ValueError message of `set_clipboard`:
`'Argument must be one of %s' % ', '.join(repr(k) for k in keys)`. -/
def setClipboardErrMsg : String :=
  "Argument must be one of " ++
    String.intercalate ", " (clipboard_types.map fun kv => "'" ++ kv.1 ++ "'")

/-- `set_clipboard(clipboard)`: an argument outside the dict's keys
raises ValueError before anything is rebound; a key rebinds both
entries together to the named backend's initializer result (the
initializer's own possible failures, such as a toolkit import error,
are platform effects outside this model). -/
def set_clipboard (d : Dispatch) (clipboard : String) : Except PyErr Unit × Dispatch :=
  match clipboard_types.lookup clipboard with
  | none => (.error (.valueError setClipboardErrMsg), d)
  | some b => (.ok (), ⟨some b, some b⟩)

/-- The sleep interval of the polling loops, in milliseconds. -/
def POLL_INTERVAL_MS : Nat := 10

/-- The loop of `waitForNewPaste` under the idealized clock: `reads i`
is what the `i`-th `paste()` call returns (the call-start capture is
read 0), `orig` the captured value, `now` the elapsed milliseconds;
each pass reads, returns on a differing value, sleeps 10 ms, and with
a timeout raises once the elapsed time strictly exceeds it. `fuel`
bounds the number of passes; `none` means the loop was still running
when the fuel ran out (the untimed loop need not terminate). -/
def waitForNewPasteGo (reads : Nat → String) (orig : String) (timeout : Option Nat) :
    Nat → Nat → Nat → Option (Except PyErr String)
  | 0, _, _ => none
  | fuel + 1, i, now =>
    if reads i != orig then some (.ok (reads i))
    else
      match timeout with
      | some t =>
        if t < now + POLL_INTERVAL_MS then some (.error (.timeoutError "waitForNewPaste"))
        else waitForNewPasteGo reads orig timeout fuel (i + 1) (now + POLL_INTERVAL_MS)
      | none => waitForNewPasteGo reads orig timeout fuel (i + 1) (now + POLL_INTERVAL_MS)

/-- `waitForNewPaste(timeout)`: capture `originalText = paste()` at
call start (read 0), then loop from read 1 at elapsed time 0. -/
def waitForNewPaste (reads : Nat → String) (timeout : Option Nat) (fuel : Nat) :
    Option (Except PyErr String) :=
  waitForNewPasteGo reads (reads 0) timeout fuel 1 0

/-- The named parameters of each backend's bound copy function, as
declared in the source (`text` everywhere; only xclip, xsel and
wl-clipboard declare a `primary` selection parameter). The
unavailable sentinel's `ClipboardUnavailable.__call__` declares no
named parameters beyond `self` — its `*args`/`**kwargs` catch-all is
recorded separately in `copyHasKwargs`. -/
def copyParams : BackendName → List String
  | .devClipboard => ["text"]
  | .windows => ["text"]
  | .wsl => ["text"]
  | .pyobjc => ["text"]
  | .pbcopy => ["text"]
  | .gpaste => ["text"]
  | .klipper => ["text"]
  | .wlClipboard => ["text", "primary"]
  | .xsel => ["text", "primary"]
  | .xclip => ["text", "primary"]
  | .qt => ["text"]
  | .no => []

/-- Whether each backend's bound copy callable declares a `**kwargs`
catch-all: only the unavailable sentinel's
`ClipboardUnavailable.__call__(self, *args, **kwargs)` does; every
`copy_*` function declares only named parameters. -/
def copyHasKwargs : BackendName → Bool
  | .no => true
  | _ => false

/-- The named parameters of each backend's bound paste function, as
declared in the source (`paste_osx_pbcopy` declares `errors`; only
xclip, xsel and wl-clipboard declare `primary`); as with the copy
side, the unavailable sentinel's catch-all is in `pasteHasKwargs`. -/
def pasteParams : BackendName → List String
  | .devClipboard => []
  | .windows => []
  | .wsl => []
  | .pyobjc => []
  | .pbcopy => ["errors"]
  | .gpaste => []
  | .klipper => []
  | .wlClipboard => ["primary"]
  | .xsel => ["primary"]
  | .xclip => ["primary"]
  | .qt => []
  | .no => []

/-- Whether each backend's bound paste callable declares a `**kwargs`
catch-all: only `ClipboardUnavailable.__call__` does. -/
def pasteHasKwargs : BackendName → Bool
  | .no => true
  | _ => false

/-- Python call semantics for a keyword argument: the call binds the
keyword iff its name is among the declared parameters or the callable
declares a `**kwargs` catch-all; otherwise it raises TypeError
(unexpected keyword argument) before the function body runs. -/
def acceptsKeyword (params : List String) (hasKwargs : Bool) (kw : String) : Bool :=
  params.contains kw || hasKwargs

/-- A Windows-call oracle on which every attempt and call succeeds and
the clipboard yields no data handle. -/
def sampleOracle : WinOracle :=
  ⟨fun _ => true, fun _ => false, 0, 0, ""⟩

/-- A Windows-call oracle on which every `OpenClipboard` attempt
fails and no checked call raises. -/
def busyOracle : WinOracle :=
  ⟨fun _ => false, fun _ => false, 0, 0, ""⟩

/-- A bare Linux environment: nothing on the PATH, no display, no
session, no importable toolkit. -/
def bareEnv : Env :=
  ⟨"Linux", "posix", false, false, "", false, none, none, none, fun _ => false, false, false⟩

/-- A GNOME desktop environment with `gpaste-client` and `xclip` on
the PATH and an X11 display. -/
def gnomeEnv : Env :=
  ⟨"Linux", "posix", false, false, "", false, some "GNOME", none, some ":0",
   fun s => s == "gpaste-client" || s == "xclip", false, false⟩

/-- A world around `bareEnv` in which every helper produces empty
output. -/
def bareWorld : World :=
  ⟨bareEnv, sampleOracle, fun _ => "", none, "", ""⟩

/-- `List.lookup` finds nothing exactly when the key is outside the
association list's key set. -/
theorem lookup_none_iff_keys {β : Type} (l : List (String × β)) (k : String) :
    l.lookup k = none ↔ k ∉ l.map Prod.fst := by
  induction l with
  | nil => simp [List.lookup]
  | cons p t ih =>
    obtain ⟨a, b⟩ := p
    by_cases h : k = a
    · subst h
      simp [List.lookup]
    · have hb : (k == a) = false := beq_false_of_ne h
      simp [List.lookup, hb, ih, h]

/-- C4: Text Coercion maps a string to itself, an integer to its
decimal form, a float to its canonical repr, and a bool to
`True`/`False`; a value of any other type is rejected with a
`PyperclipException` carrying the actual type's name; and because
every backend's copy function calls `_stringifyText` first, every
backend other than the unavailable sentinel rejects an unsupported
value with exactly that error. -/
theorem c4_text_coercion :
    (∀ s, stringifyText (.pyStr s) = .ok s) ∧
    (∀ n, stringifyText (.pyInt n) = .ok (toString n)) ∧
    (∀ r, stringifyText (.pyFloat r) = .ok r) ∧
    (∀ b, stringifyText (.pyBool b) = .ok (if b then "True" else "False")) ∧
    (∀ tn, stringifyText (.pyOther tn) = .error (.pyperclipError (unsupportedMsg tn))) ∧
    (∀ (w : World) (b : BackendName) (tn : String), b ≠ .no →
      backendCopy w b (.pyOther tn) = .error (.pyperclipError (unsupportedMsg tn))) := by
  refine ⟨fun s => rfl, fun n => rfl, fun r => rfl, fun b => rfl, fun tn => rfl, ?_⟩
  intro w b tn hb
  cases b <;>
    simp [backendCopy, copy_dev_clipboard, copy_wsl, copy_osx_pyobjc, copy_osx_pbcopy,
      copy_gpaste, copy_klipper, copy_wl, copy_xsel, copy_xclip, copy_qt, copy_windows,
      stringifyText, Except.map, Bind.bind, Except.bind] at hb ⊢

/-- C4 witness: the xclip backend's copy, handed a value of type
`dict`, fails with the unsupported-type error naming `dict`. -/
theorem c4_text_coercion_witness :
    backendCopy bareWorld .xclip (.pyOther "dict")
      = .error (.pyperclipError (unsupportedMsg "dict")) :=
  c4_text_coercion.2.2.2.2.2 bareWorld .xclip "dict" (by decide)

/-- C3: the `CheckedCall` wrapper raises the structured Windows error
naming the failing call exactly when the wrapped call's return value
is falsy and the OS error code is nonzero; a falsy return with a zero
error code (and any truthy return) passes through unchanged; in
particular `paste_windows`, when `GetClipboardData` returns no handle
with no OS error, returns the empty string rather than an error. -/
theorem c3_checked_call (name : String) (ret errno : Nat) :
    (ret = 0 → errno ≠ 0 → checkedCall name ret errno = .error (.winApi name)) ∧
    (errno = 0 → checkedCall name ret errno = .ok ret) ∧
    (ret ≠ 0 → checkedCall name ret errno = .ok ret) ∧
    (∀ o : WinOracle, o.getDataHandle = 0 → o.getDataErrno = 0 →
      openRetrySucceeds o.openOk = true → o.callFails "CloseClipboard" = false →
      (paste_windows o).1 = .ok "") := by
  refine ⟨?_, ?_, ?_, ?_⟩
  · intro h1 h2
    simp [checkedCall, h1, h2]
  · intro h
    simp [checkedCall, h]
  · intro h
    simp [checkedCall, h]
  · intro o h0 h1 hopen hclose
    simp [paste_windows, clipboardCtx, hopen, hclose, pasteWindowsBody, wbind, wret,
      checkedCall, h0, h1, winInit]

/-- C3 witness: `checkedCall` at a falsy return with OS error code 5
raises naming the call, at a falsy return with no OS error code
passes the falsy value through, and a paste on a world whose
`GetClipboardData` yields no handle and no error returns the empty
string. -/
theorem c3_checked_call_witness :
    checkedCall "GetClipboardData" 0 5 = .error (.winApi "GetClipboardData") ∧
    checkedCall "GetClipboardData" 0 0 = .ok 0 ∧
    (paste_windows sampleOracle).1 = .ok "" := by
  refine ⟨(c3_checked_call "GetClipboardData" 0 5).1 rfl (by decide),
    (c3_checked_call "GetClipboardData" 0 0).2.1 rfl,
    (c3_checked_call "GetClipboardData" 0 0).2.2.2 sampleOracle rfl rfl (by decide) rfl⟩

/-- C6 counterexample: the claim that every backend's write and read
accept the primary-selection flag is false — the native Windows copy
function declares no `primary` parameter and no `**kwargs`, nor does
the klipper paste function, so a call passing the keyword raises
TypeError there. -/
theorem c6_primary_counterexample :
    acceptsKeyword (copyParams .windows) (copyHasKwargs .windows) "primary" = false ∧
    acceptsKeyword (pasteParams .klipper) (pasteHasKwargs .klipper) "primary" = false ∧
    ¬ ∀ b : BackendName,
        acceptsKeyword (copyParams b) (copyHasKwargs b) "primary" = true ∧
        acceptsKeyword (pasteParams b) (pasteHasKwargs b) "primary" = true := by
  refine ⟨rfl, rfl, fun h => ?_⟩
  exact absurd (h .windows).1 (by decide)

/-- C6 amended: the primary-selection keyword binds on both the write
and the read operation exactly for the xclip, xsel and wl-clipboard
backends (which declare the parameter) and for the unavailable
sentinel (whose `ClipboardUnavailable.__call__` accepts any keywords
through `**kwargs` — and then fails with the fixed no-mechanism
error, as always, rather than with a TypeError); every other
backend's functions declare neither the parameter nor `**kwargs`, so
passing the flag there fails with a TypeError. -/
theorem c6_primary_amended :
    (∀ b : BackendName,
      (acceptsKeyword (copyParams b) (copyHasKwargs b) "primary"
        && acceptsKeyword (pasteParams b) (pasteHasKwargs b) "primary")
        = (b == .xclip || b == .xsel || b == .wlClipboard || b == .no)) ∧
    (∀ args, clipboardUnavailableCall args = .error (.pyperclipError EXCEPT_MSG)) := by
  exact ⟨fun b => by cases b <;> rfl, fun _ => rfl⟩

/-- C10: `set_clipboard` with a name outside the keys of its
`clipboard_types` dict raises ValueError and leaves the dispatch pair
untouched — the membership check precedes any rebinding — while a
key rebinds both entry points together to that backend's
initializer's pair. -/
theorem c10_set_clipboard (d : Dispatch) (name : String) :
    (name ∉ clipboard_types.map Prod.fst →
      set_clipboard d name = (.error (.valueError setClipboardErrMsg), d)) ∧
    (∀ b, clipboard_types.lookup name = some b →
      set_clipboard d name = (.ok (), ⟨some b, some b⟩)) := by
  constructor
  · intro h
    have hl : clipboard_types.lookup name = none := (lookup_none_iff_keys _ _).mpr h
    simp [set_clipboard, hl]
  · intro b hb
    simp [set_clipboard, hb]

/-- C10 witness: `set_clipboard("gtk")` (a name the dict does not
hold, though the docstring mentions it) raises ValueError and leaves
an xclip-bound dispatch pair exactly as it was; `set_clipboard("xsel")`
rebinds both entries to the xsel backend. -/
theorem c10_set_clipboard_witness :
    set_clipboard ⟨some .xclip, some .xclip⟩ "gtk"
      = (.error (.valueError setClipboardErrMsg), ⟨some .xclip, some .xclip⟩) ∧
    set_clipboard ⟨some .xclip, some .xclip⟩ "xsel" = (.ok (), ⟨some .xsel, some .xsel⟩) :=
  ⟨(c10_set_clipboard ⟨some .xclip, some .xclip⟩ "gtk").1 (by decide),
   (c10_set_clipboard ⟨some .xclip, some .xclip⟩ "xsel").2 .xsel (by decide)⟩

/-- An environment in which no resolution branch can match: no
Cygwin/Windows/WSL/macOS identity, nothing on the executable search
path, and no importable toolkit. -/
def noBackendEnv (env : Env) : Prop :=
  strContains (lowerStr env.platformSystem) "cygwin" = false ∧
  (env.osName == "nt" || env.platformSystem == "Windows") = false ∧
  wslGuard env = false ∧
  (env.osName == "mac" || env.platformSystem == "Darwin") = false ∧
  (∀ s, env.which s = false) ∧
  env.qtpyImportable = false ∧
  env.pyqt5Importable = false

/-- In a `noBackendEnv` environment, resolution reaches the final
fallback and returns the unavailable pair. -/
theorem resolve_no {env : Env} (h : noBackendEnv env) : determine_clipboard env = .no := by
  obtain ⟨h1, h2, h3, h4, hw, hq, hp⟩ := h
  simp [determine_clipboard, afterPlatform, linuxTail, afterDesktop, qtFallback,
    h1, h2, h3, h4, hw, hq, hp]
  cases env.xdgCurrentDesktop <;> simp [hw, hq, hp]

/-- C7: when no resolution branch matches, `determine_clipboard`
returns the unavailable sentinel pair, whose calls — with any
arguments, independent of anything about the platform — fail with
the one fixed `EXCEPT_MSG` message, and whose truth value is false. -/
theorem c7_unavailable_pair (env : Env) (h : noBackendEnv env) :
    determine_clipboard env = .no ∧
    (∀ args, clipboardUnavailableCall args = .error (.pyperclipError EXCEPT_MSG)) ∧
    clipboardUnavailableBool = false :=
  ⟨resolve_no h, fun _ => rfl, rfl⟩

/-- C7 witness: on the bare Linux environment resolution returns the
unavailable pair and a call of it fails with the fixed message. -/
theorem c7_unavailable_pair_witness :
    determine_clipboard bareEnv = .no ∧
    clipboardUnavailableCall [.pyStr "x"] = .error (.pyperclipError EXCEPT_MSG) := by
  have h := c7_unavailable_pair bareEnv
    ⟨by decide, by decide, by decide, by decide, fun s => rfl, rfl, rfl⟩
  exact ⟨h.1, h.2.1 [.pyStr "x"]⟩

/-- C9: when resolution yields the unavailable pair, the first call
of the module-level `copy` raises the no-mechanism error, yet it
rebinds both entry points away from the lazy stubs, so `is_available`
reports true from then on even though copy and paste keep failing
with the same error and the dispatch state no longer changes. -/
theorem c9_rebound_after_failure (w : World) (v : PyValue) (h : noBackendEnv w.env) :
    (callCopy w dispatchInit v).1 = .error (.pyperclipError EXCEPT_MSG) ∧
    is_available (callCopy w dispatchInit v).2 = true ∧
    (callCopy w (callCopy w dispatchInit v).2 v).1 = .error (.pyperclipError EXCEPT_MSG) ∧
    (callPaste w (callCopy w dispatchInit v).2).1 = .error (.pyperclipError EXCEPT_MSG) ∧
    (callPaste w (callCopy w dispatchInit v).2).2 = (callCopy w dispatchInit v).2 := by
  have hr : determine_clipboard w.env = .no := resolve_no h
  simp [callCopy, callPaste, dispatchInit, hr, backendCopy, backendPaste,
    clipboardUnavailableCall, is_available, Except.map]

/-- C9 witness: on the bare world, the first copy call fails with the
fixed message while `is_available` becomes true. -/
theorem c9_rebound_after_failure_witness :
    (callCopy bareWorld dispatchInit (.pyStr "x")).1 = .error (.pyperclipError EXCEPT_MSG) ∧
    is_available (callCopy bareWorld dispatchInit (.pyStr "x")).2 = true := by
  have h := c9_rebound_after_failure bareWorld (.pyStr "x")
    ⟨by decide, by decide, by decide, by decide, fun s => rfl, rfl, rfl⟩
  exact ⟨h.1, h.2.1⟩

/-- When the loop of `waitForNewPaste` returns a value, that value
differs from the captured original. -/
theorem waitGo_ok_ne (reads : Nat → String) (orig : String) :
    ∀ (fuel : Nat) (timeout : Option Nat) (i now : Nat) (s : String),
      waitForNewPasteGo reads orig timeout fuel i now = some (.ok s) → s ≠ orig := by
  intro fuel
  induction fuel with
  | zero =>
    intro timeout i now s h
    simp [waitForNewPasteGo] at h
  | succ n ih =>
    intro timeout i now s h
    simp only [waitForNewPasteGo] at h
    split at h
    · rename_i hc
      have hs : reads i = s := Except.ok.inj (Option.some.inj h)
      rw [← hs]
      exact bne_iff_ne.mp hc
    · split at h
      · split at h
        · exact absurd h (by simp)
        · exact ih _ _ _ _ h
      · exact ih _ _ _ _ h

/-- When every read repeats the captured value and the timeout budget
is below what the remaining passes will consume, the loop of
`waitForNewPaste` raises the timeout error. -/
theorem waitGo_const_timeout (reads : Nat → String) (t : Nat)
    (hconst : ∀ i, reads i = reads 0) :
    ∀ (fuel i now : Nat), now ≤ t → t < now + POLL_INTERVAL_MS * fuel →
      waitForNewPasteGo reads (reads 0) (some t) fuel i now
        = some (.error (.timeoutError "waitForNewPaste")) := by
  intro fuel
  induction fuel with
  | zero =>
    intro i now h1 h2
    simp [Nat.mul_zero] at h2
    omega
  | succ n ih =>
    intro i now h1 h2
    simp only [waitForNewPasteGo]
    have hre : (reads i != reads 0) = false := by
      rw [hconst i]
      simp
    rw [hre]
    simp only [Bool.false_eq_true, if_false]
    by_cases hlt : t < now + POLL_INTERVAL_MS
    · simp [hlt]
    · rw [if_neg hlt]
      have hn : now + POLL_INTERVAL_MS ≤ t := Nat.le_of_not_lt hlt
      apply ih (i + 1) (now + POLL_INTERVAL_MS) hn
      have hmul : POLL_INTERVAL_MS * (n + 1) = POLL_INTERVAL_MS + POLL_INTERVAL_MS * n := by ring
      omega

/-- C8: `waitForNewPaste` returns a value only when a read yields
something different from the value captured at call start — so
repeated reads of the same value never make it return — and when a
timeout is given and every read keeps repeating the captured value,
the elapsed 10 ms polling steps exceed the timeout and the call fails
with the timeout error. -/
theorem c8_wait_for_new_paste (reads : Nat → String) (timeout : Option Nat) (fuel : Nat) :
    (∀ s, waitForNewPaste reads timeout fuel = some (.ok s) → s ≠ reads 0) ∧
    (∀ t, timeout = some t → (∀ i, reads i = reads 0) → t < POLL_INTERVAL_MS * fuel →
      waitForNewPaste reads timeout fuel
        = some (.error (.timeoutError "waitForNewPaste"))) := by
  constructor
  · intro s h
    exact waitGo_ok_ne reads (reads 0) fuel timeout 1 0 s h
  · intro t ht hconst hfuel
    subst ht
    exact waitGo_const_timeout reads t hconst fuel 1 0 (Nat.zero_le t) (by simpa using hfuel)

/-- C8 witness: with every read returning `"a"` and a 25 ms timeout,
three polling passes suffice for the call to fail with the timeout
error. -/
theorem c8_wait_for_new_paste_witness :
    waitForNewPaste (fun _ => "a") (some 25) 3
      = some (.error (.timeoutError "waitForNewPaste")) :=
  (c8_wait_for_new_paste (fun _ => "a") (some 25) 3).2 25 rfl (fun _ => rfl) (by decide)

/-- The display-based tail of resolution is first-match resolution
over the spec's branches (c)–(e). -/
theorem afterDesktop_eq (env : Env) :
    afterDesktop env
      = firstMatch [(waylandGuard, .wlClipboard), (xselGuard, .xsel), (xclipGuard, .xclip),
          (toolkitGuard, .qt)] .no env := by
  simp only [afterDesktop, firstMatch, waylandGuard, xselGuard, xclipGuard, toolkitGuard,
    qtFallback]
  cases hd : envTruthy env.display <;>
    cases hs : env.which "xsel" <;>
      cases hc : env.which "xclip" <;>
        cases hq : env.qtpyImportable <;>
          cases hp : env.pyqt5Importable <;>
            simp [hd, hs, hc, hq, hp]

/-- The generic POSIX tail of resolution is first-match resolution
over the spec's ordered branch list (a)–(e). -/
theorem linuxTail_eq (env : Env) : linuxTail env = firstMatch linuxBranches .no env := by
  have hstep : firstMatch linuxBranches .no env
      = if gnomeGuard env then .gpaste
        else if kdeGuard env then .klipper
        else firstMatch [(waylandGuard, .wlClipboard), (xselGuard, .xsel), (xclipGuard, .xclip),
          (toolkitGuard, .qt)] .no env := rfl
  rw [hstep, ← afterDesktop_eq]
  unfold linuxTail gnomeGuard kdeGuard
  cases hx : env.xdgCurrentDesktop <;> simp [hx]

/-- C1: backend resolution is an ordered first-match decision
procedure; on generic desktop Linux (no Cygwin, Windows, WSL or macOS
identity) it equals first-match resolution over, in order: the GNOME
gpaste branch, the KDE klipper branch, the Wayland wl-clipboard
branch, the X11 xsel branch then the X11 xclip branch, the toolkit
branch, with the unavailable pair as default — so whichever branch
matches first determines the backend and no later branch matters. -/
theorem c1_resolution_ordered (env : Env)
    (hcyg : strContains (lowerStr env.platformSystem) "cygwin" = false)
    (hwin : (env.osName == "nt" || env.platformSystem == "Windows") = false)
    (hwsl : wslGuard env = false)
    (hmac : (env.osName == "mac" || env.platformSystem == "Darwin") = false) :
    determine_clipboard env = firstMatch linuxBranches .no env := by
  rw [← linuxTail_eq]
  simp [determine_clipboard, afterPlatform, hcyg, hwin, hwsl, hmac]

/-- C1 witness: on a GNOME desktop with `gpaste-client` and `xclip`
on the PATH and an X11 display, resolution agrees with the ordered
first-match procedure (both select gpaste, the first match). -/
theorem c1_resolution_ordered_witness :
    determine_clipboard gnomeEnv = firstMatch linuxBranches .no gnomeEnv :=
  c1_resolution_ordered gnomeEnv (by decide) (by decide) (by decide) (by decide)

/-- A computation that leaves the resource state unchanged. -/
def StateFixed {α : Type} (m : WinM α) : Prop :=
  ∀ s, (m s).2 = s

/-- `wret` leaves the state unchanged. -/
theorem stateFixed_wret {α : Type} (a : α) : StateFixed (wret a) :=
  fun _ => rfl

/-- A checked call leaves the state unchanged. -/
theorem stateFixed_checked (o : WinOracle) (name : String) : StateFixed (checked o name) :=
  fun _ => rfl

/-- Sequencing preserves leaving the state unchanged. -/
theorem stateFixed_wbind {α β : Type} {m : WinM α} {f : α → WinM β}
    (hm : StateFixed m) (hf : ∀ a, StateFixed (f a)) : StateFixed (wbind m f) := by
  intro s
  unfold wbind
  cases hms : m s with
  | mk r s' =>
    have hs : s' = s := by
      have := hm s
      rw [hms] at this
      exact this
    subst hs
    cases r with
    | ok a => exact hf a _
    | error e => rfl

/-- The copy body only issues checked calls, so it leaves the
resource counters unchanged. -/
theorem stateFixed_copyBody (o : WinOracle) (t : String) :
    StateFixed (copyWindowsBody o t) := by
  unfold copyWindowsBody
  refine stateFixed_wbind (stateFixed_checked o _) fun _ => ?_
  split
  · exact stateFixed_wret ()
  · exact stateFixed_wbind (stateFixed_checked o _) fun _ =>
      stateFixed_wbind (stateFixed_checked o _) fun _ =>
        stateFixed_wbind (stateFixed_checked o _) fun _ =>
          stateFixed_wbind (stateFixed_checked o _) fun _ => stateFixed_checked o _

/-- The paste body only issues checked calls, so it leaves the
resource counters unchanged. -/
theorem stateFixed_pasteBody (o : WinOracle) : StateFixed (pasteWindowsBody o) := by
  unfold pasteWindowsBody
  refine stateFixed_wbind (fun _ => rfl) fun handle => ?_
  split
  · exact stateFixed_wret ""
  · exact stateFixed_wbind (stateFixed_checked o _) fun _ =>
      stateFixed_wbind (stateFixed_checked o _) fun _ => stateFixed_wret _

/-- The `clipboard()` context around a counter-preserving body: when
some open attempt succeeds, the final state records exactly one more
open and one more close with the clipboard no longer held; when the
retry loop times out, the state is untouched. -/
theorem clipboardCtx_state {α : Type} (o : WinOracle) (body : WinM α)
    (hb : StateFixed body) (s : WinState) :
    (clipboardCtx o body s).2
      = if openRetrySucceeds o.openOk then
          { s with opened := s.opened + 1, closed := s.closed + 1, isOpen := false }
        else s := by
  unfold clipboardCtx
  cases hop : openRetrySucceeds o.openOk
  · rfl
  · cases hbody : body { s with opened := s.opened + 1, isOpen := true } with
    | mk r s2 =>
      have hs2 : s2 = { s with opened := s.opened + 1, isOpen := true } := by
        have hfix := hb { s with opened := s.opened + 1, isOpen := true }
        rw [hbody] at hfix
        exact hfix
      subst hs2
      cases hcf : o.callFails "CloseClipboard" <;> cases r <;> rfl

/-- The `window()` context around the clipboard scope: a failed
window creation leaves the state untouched; otherwise the final state
records the window created and destroyed, plus the open/close pair
exactly when some open attempt succeeded. -/
theorem withWindow_state {α : Type} (o : WinOracle) (inner : WinM α) (s : WinState)
    (h : ∀ s2, (inner s2).2
        = if openRetrySucceeds o.openOk then
            { s2 with opened := s2.opened + 1, closed := s2.closed + 1, isOpen := false }
          else s2) :
    (withWindow o inner s).2
      = if o.callFails "CreateWindowExA" then s
        else if openRetrySucceeds o.openOk then
          { s with created := s.created + 1, destroyed := s.destroyed + 1, opened := s.opened + 1, closed := s.closed + 1, isOpen := false }
        else { s with created := s.created + 1, destroyed := s.destroyed + 1 } := by
  unfold withWindow destroyWindow
  cases hcw : o.callFails "CreateWindowExA"
  · cases hin : inner { s with created := s.created + 1 } with
    | mk r s2 =>
      have hs2 := h { s with created := s.created + 1 }
      rw [hin] at hs2
      cases hop : openRetrySucceeds o.openOk <;> simp only [hop] at hs2 ⊢ <;>
        simp at hs2 <;> subst hs2 <;>
          cases hdw : o.callFails "DestroyWindow" <;> cases r <;> rfl
  · rfl

/-- Unfolding `copy_windows` once the text coercion has succeeded. -/
theorem copy_windows_ok {o : WinOracle} {v : PyValue} {t : String}
    (hv : stringifyText v = .ok t) :
    copy_windows o v = withWindow o (clipboardCtx o (copyWindowsBody o t)) winInit := by
  unfold copy_windows
  rw [hv]

/-- Each `openLoop` budget of attempts succeeds exactly when one of
the attempts it has fuel for reports success. -/
theorem openLoop_iff (ok : Nat → Bool) :
    ∀ (n i : Nat), openLoop ok n i = true ↔ ∃ j, j < n ∧ ok (i + j) = true := by
  intro n
  induction n with
  | zero =>
    intro i
    simp [openLoop]
  | succ m ih =>
    intro i
    rw [openLoop]
    by_cases h : ok i = true
    · rw [if_pos h]
      constructor
      · intro _
        exact ⟨0, Nat.succ_pos m, by simpa using h⟩
      · intro _
        rfl
    · rw [if_neg h]
      rw [ih (i + 1)]
      have hfalse : ok i = false := by
        cases hoki : ok i
        · rfl
        · exact absurd hoki h
      constructor
      · rintro ⟨j, hj, hok⟩
        exact ⟨j + 1, by omega, by rw [show i + (j + 1) = i + 1 + j by omega]; exact hok⟩
      · rintro ⟨j, hj, hok⟩
        cases j with
        | zero =>
          rw [Nat.add_zero] at hok
          rw [hfalse] at hok
          cases hok
        | succ k =>
          exact ⟨k, by omega, by rw [show i + 1 + k = i + (k + 1) by omega]; exact hok⟩

/-- When every attempt within the budget fails, the open-retry phase
reports failure. -/
theorem openRetry_false {o : WinOracle}
    (h : ∀ j, j < OPEN_TIMEOUT_MS / OPEN_RETRY_INTERVAL_MS → o.openOk j = false) :
    openRetrySucceeds o.openOk = false := by
  cases hr : openRetrySucceeds o.openOk
  · rfl
  · exfalso
    obtain ⟨j, hj, hok⟩ :=
      (openLoop_iff o.openOk (OPEN_TIMEOUT_MS / OPEN_RETRY_INTERVAL_MS) 0).mp hr
    rw [Nat.zero_add] at hok
    rw [h j hj] at hok
    cases hok

/-- C2: every native Windows operation balances its resources — as
many `DestroyWindow` calls as windows created, as many
`CloseClipboard` calls as successful opens, and the clipboard not
held at exit — on every path; the open-retry phase succeeds exactly
when one of its `OPEN_TIMEOUT_MS / OPEN_RETRY_INTERVAL_MS` attempts
(10 ms apart over 500 ms) succeeds; and when every attempt in the
budget fails, copy and paste raise the clipboard-busy error
(`Error calling OpenClipboard`) with the clipboard never opened and
the window created for the copy destroyed again. -/
theorem c2_windows_scopes (o : WinOracle) (v : PyValue) :
    ((copy_windows o v).2.created = (copy_windows o v).2.destroyed ∧
     (copy_windows o v).2.opened = (copy_windows o v).2.closed ∧
     (copy_windows o v).2.isOpen = false) ∧
    ((paste_windows o).2.created = (paste_windows o).2.destroyed ∧
     (paste_windows o).2.opened = (paste_windows o).2.closed ∧
     (paste_windows o).2.isOpen = false) ∧
    (openRetrySucceeds o.openOk = true ↔
      ∃ j, j < OPEN_TIMEOUT_MS / OPEN_RETRY_INTERVAL_MS ∧ o.openOk j = true) ∧
    ((∀ j, j < OPEN_TIMEOUT_MS / OPEN_RETRY_INTERVAL_MS → o.openOk j = false) →
      o.callFails "CreateWindowExA" = false → o.callFails "DestroyWindow" = false →
      (∀ t, copy_windows o (.pyStr t)
          = (.error (.winApi "OpenClipboard"), ⟨1, 1, 0, 0, false⟩)) ∧
      paste_windows o = (.error (.winApi "OpenClipboard"), ⟨0, 0, 0, 0, false⟩)) := by
  refine ⟨?_, ?_, ?_, ?_⟩
  · cases hv : stringifyText v with
    | error e =>
      unfold copy_windows
      rw [hv]
      exact ⟨rfl, rfl, rfl⟩
    | ok t =>
      rw [copy_windows_ok hv,
        withWindow_state o (clipboardCtx o (copyWindowsBody o t)) winInit
          (fun s2 => clipboardCtx_state o (copyWindowsBody o t) (stateFixed_copyBody o t) s2)]
      cases hcw : o.callFails "CreateWindowExA" <;>
        cases hop : openRetrySucceeds o.openOk <;> simp [winInit]
  · unfold paste_windows
    rw [clipboardCtx_state o (pasteWindowsBody o) (stateFixed_pasteBody o) winInit]
    cases hop : openRetrySucceeds o.openOk <;> simp [winInit]
  · have hiff := openLoop_iff o.openOk (OPEN_TIMEOUT_MS / OPEN_RETRY_INTERVAL_MS) 0
    simpa using hiff
  · intro hfail hcw hdw
    have hop : openRetrySucceeds o.openOk = false := openRetry_false hfail
    constructor
    · intro t
      rw [copy_windows_ok (show stringifyText (.pyStr t) = .ok t from rfl)]
      simp [withWindow, wbind, createWindow, destroyWindow, clipboardCtx, hop, hcw, hdw,
        winInit]
    · simp [paste_windows, clipboardCtx, hop, winInit]

/-- C2 witness: on an oracle whose every `OpenClipboard` attempt
fails, a copy raises the clipboard-busy error with one window created
and destroyed and the clipboard never opened, and a paste raises it
with no resources touched. -/
theorem c2_windows_scopes_witness :
    copy_windows busyOracle (.pyStr "hi")
      = (.error (.winApi "OpenClipboard"), ⟨1, 1, 0, 0, false⟩) ∧
    paste_windows busyOracle = (.error (.winApi "OpenClipboard"), ⟨0, 0, 0, 0, false⟩) := by
  have h := (c2_windows_scopes busyOracle (.pyStr "hi")).2.2.2
    (fun j _ => rfl) rfl rfl
  exact ⟨h.1 "hi", h.2⟩

/-- C5 counterexample: the claim that every backend's read returns
the empty string — never null and never an error — when the
clipboard holds no text data is false on two backends. The gpaste
read takes element `[0]` of the stripped lines of the history
output, so with nothing in the history (empty output) it raises
IndexError instead of returning `""`; and the pyobjc read passes the
pasteboard content through unchanged, so when the pasteboard holds
no string it returns `None` rather than `""`. -/
theorem c5_empty_read_counterexample :
    paste_gpaste "" = .error .indexError ∧ paste_osx_pyobjc none = none := by
  exact ⟨rfl, rfl⟩

/-- C5 amended: the windows, xclip, xsel, wl-clipboard, pbcopy,
klipper, wsl, qt and dev-clipboard reads return the empty string
when the clipboard holds no text data (for the native Windows read,
when `GetClipboardData` yields no handle and no OS error); but the
gpaste read fails with IndexError on an empty history output, and
the pyobjc read returns null when the pasteboard holds no string. -/
theorem c5_empty_read_amended :
    (∀ p, paste_xclip "" p = "") ∧
    (∀ p, paste_xsel "" p = "") ∧
    (∀ p, paste_wl "" p = "") ∧
    paste_osx_pbcopy "" = "" ∧
    paste_klipper "" = "" ∧
    paste_wsl "" = "" ∧
    paste_qt "" = "" ∧
    paste_dev_clipboard "" = "" ∧
    (∀ o : WinOracle, o.getDataHandle = 0 → o.getDataErrno = 0 →
      openRetrySucceeds o.openOk = true → o.callFails "CloseClipboard" = false →
      (paste_windows o).1 = .ok "") ∧
    paste_gpaste "" = .error .indexError ∧
    paste_osx_pyobjc none = none := by
  refine ⟨fun _ => rfl, fun _ => rfl, fun _ => rfl, rfl, rfl, rfl, rfl, rfl, ?_, rfl, rfl⟩
  intro o h0 h1 hopen hclose
  simp [paste_windows, clipboardCtx, hopen, hclose, pasteWindowsBody, wbind, wret,
    checkedCall, h0, h1, winInit]

/-- C5 amended witness: on an oracle whose first open attempt
succeeds and whose `GetClipboardData` yields no handle with no OS
error, the native Windows read returns the empty string. -/
theorem c5_empty_read_amended_witness :
    (paste_windows sampleOracle).1 = .ok "" :=
  c5_empty_read_amended.2.2.2.2.2.2.2.2.1 sampleOracle rfl rfl (by decide) rfl

end Pyperclip
